import Mathlib

/-!
Verification development for the Egif inventory/point-of-sale application.

The stock-consistency subsystem lives in `src/transactions/models.py`
(`Purchase._apply_stock_add`, `Purchase.save`, `Purchase.delete`), and the
financial aggregation in `src/store/views.py` (`dashboard`,
`compute_total_inventory_cost`, `compute_total_purchase_cost`,
`delete_item_ajax`).  This file is a shallow embedding of those operations:
the database is explicit state (a stock function per item id, a purchase row
table), Python exceptions become `Except`, Django `DecimalField` values become
exact integers (fixed-point), and nullable fields become `Option`.
-/

namespace Egif

/-- Identifier of an `Item` row (Django primary key). -/
abbrev ItemId := Nat

/-- Stored `Purchase` row: item reference, nullable quantity and unit price,
and the derived `total_value` column, as persisted by `Purchase.save`. -/
structure PRow where
  itemId : ItemId
  quantity : Option Nat
  price : Option Int
  totalValue : Int
deriving Repr, DecidableEq

/-- Database state visible to the purchase reconciler: `stock` is
`Item.quantity` per item id, `writes` counts the UPDATE statements issued
against the `Item` table (used to state that a zero delta issues none),
`rows` is the `Purchase` table keyed by primary key, and `nextPk` is the
next key the database assigns on INSERT. -/
structure DB where
  stock : ItemId → Int
  writes : Nat
  rows : Nat → Option PRow
  nextPk : Nat

/-- Coercion used throughout the Python code: `int(x or 0)` on a nullable
non-negative integer field. -/
def qtyInt (q : Option Nat) : Int := (q.getD 0 : Nat)

/-- Embedding of `Purchase._apply_stock_add` (models.py lines 181 to 187):
`if qty == 0: return`, otherwise a single atomic
`Item.objects.filter(pk=item_id).update(quantity=F(quantity) + qty)`. -/
def applyStockAdd (db : DB) (itemId : ItemId) (qty : Int) : DB :=
  if qty = 0 then db
  else
    { db with
      stock := fun j => if j = itemId then db.stock j + qty else db.stock j,
      writes := db.writes + 1 }

/-- Computation of the derived column in `Purchase.save`:
`self.total_value = (self.price or Decimal("0.00")) * (self.quantity or 0)`.
The computation is total (the Python `try` around it never fires on numeric
fields; a null operand is replaced by zero by `or`). -/
def purchaseTotalValue (price : Option Int) (qty : Option Nat) : Int :=
  price.getD 0 * qtyInt qty

/-- Embedding of `Purchase.save` (models.py lines 189 to 225).
Arguments are the fields of `self`: an optional primary key (`None` for a
new instance), the item reference, and the nullable quantity and price.
The three branches follow the source: create (persist then apply `+qty`);
update with item changed (reverse `-old_qty` on the old item, persist,
apply `+new_qty` on the new item); update with same item (persist, then
apply the delta `new_qty - old_qty` only when it is nonzero).  Reading a
missing row (`Purchase.objects.select_for_update().get`) raises. -/
def purchaseSave (db : DB) (pk : Option Nat) (itemId : ItemId)
    (qty : Option Nat) (price : Option Int) : Except String DB :=
  let row : PRow := ⟨itemId, qty, price, purchaseTotalValue price qty⟩
  match pk with
  | none =>
      let p := db.nextPk
      let db1 : DB :=
        { db with rows := fun q => if q = p then some row else db.rows q,
                  nextPk := p + 1 }
      .ok (applyStockAdd db1 itemId (qtyInt qty))
  | some p =>
      match db.rows p with
      | none => .error "Purchase.DoesNotExist"
      | some old =>
          let oldQty := qtyInt old.quantity
          let newQty := qtyInt qty
          if old.itemId ≠ itemId then
            let db1 := applyStockAdd db old.itemId (-oldQty)
            let db2 : DB :=
              { db1 with rows := fun q => if q = p then some row else db1.rows q }
            .ok (applyStockAdd db2 itemId newQty)
          else
            let delta := newQty - oldQty
            let db2 : DB :=
              { db with rows := fun q => if q = p then some row else db.rows q }
            .ok (if delta ≠ 0 then applyStockAdd db2 itemId delta else db2)

/-- Embedding of `Purchase.delete` (models.py lines 227 to 242): lock the
item, reject when `item.quantity - int(self.quantity or 0) < 0` (ValueError
propagates, the transaction rolls back, nothing is mutated), otherwise
write the decremented quantity and remove the purchase row. -/
def purchaseDelete (db : DB) (pk : Nat) : Except String DB :=
  match db.rows pk with
  | none => .error "Purchase.DoesNotExist"
  | some row =>
      let q := qtyInt row.quantity
      if db.stock row.itemId - q < 0 then
        .error "Suppression impossible : la quantite deviendrait negative."
      else
        .ok { db with
              stock := fun j => if j = row.itemId then db.stock j - q else db.stock j,
              writes := db.writes + 1,
              rows := fun p => if p = pk then none else db.rows p }

/-- Purchase lifecycle operation against a fixed target item: create a new
purchase of that item, update an existing purchase keeping that item, or
delete a purchase. -/
inductive POp where
  | create (qty : Option Nat) (price : Option Int)
  | update (pk : Nat) (qty : Option Nat) (price : Option Int)
  | del (pk : Nat)

/-- Dispatch one operation to the corresponding model method. -/
def runOp (i : ItemId) (db : DB) : POp → Except String DB
  | .create qty price => purchaseSave db none i qty price
  | .update pk qty price => purchaseSave db (some pk) i qty price
  | .del pk => purchaseDelete db pk

/-- Effect of one request on the database: a raised exception rolls the
transaction back, leaving the state unchanged. -/
def stepOp (i : ItemId) (db : DB) (op : POp) : DB :=
  match runOp i db op with
  | .ok db1 => db1
  | .error _ => db

/-- Run a sequence of purchase operations against the target item. -/
def runOps (i : ItemId) (db : DB) : List POp → DB
  | [] => db
  | op :: ops => runOps i (stepOp i db op) ops

/-- Delta applied to the target item by one operation in a given state, as
the specification accounts for it: `+quantity` for a create,
`new_quantity - old_quantity` for an applied same-item update, `-quantity`
for an applied delete, and `0` for an operation that is rejected (missing
row, or a delete that would drive stock negative). -/
def appliedDelta (db : DB) : POp → Int
  | .create qty _ => qtyInt qty
  | .update pk qty _ =>
      match db.rows pk with
      | some old => qtyInt qty - qtyInt old.quantity
      | none => 0
  | .del pk =>
      match db.rows pk with
      | some old =>
          if db.stock old.itemId - qtyInt old.quantity < 0 then 0
          else -(qtyInt old.quantity)
      | none => 0

/-- Sum of the applied deltas along a run. -/
def sumDeltas (i : ItemId) (db : DB) : List POp → Int
  | [] => 0
  | op :: ops => appliedDelta db op + sumDeltas i (stepOp i db op) ops

theorem applyStockAdd_stock_self (db : DB) (i : ItemId) (q : Int) :
    (applyStockAdd db i q).stock i = db.stock i + q := by
  unfold applyStockAdd
  split
  · omega
  · simp

theorem applyStockAdd_stock_other (db : DB) (i : ItemId) (q : Int) (j : ItemId)
    (h : j ≠ i) : (applyStockAdd db i q).stock j = db.stock j := by
  unfold applyStockAdd
  split
  · rfl
  · simp [h]

theorem applyStockAdd_rows (db : DB) (i : ItemId) (q : Int) :
    (applyStockAdd db i q).rows = db.rows := by
  unfold applyStockAdd
  split <;> rfl

theorem stepOp_stock (i : ItemId) (db : DB) (op : POp)
    (hrows : ∀ pk r, db.rows pk = some r → r.itemId = i) :
    (stepOp i db op).stock i = db.stock i + appliedDelta db op := by
  cases op with
  | create qty price =>
      simp only [stepOp, runOp, purchaseSave, appliedDelta]
      rw [applyStockAdd_stock_self]
  | update pk qty price =>
      cases hrow : db.rows pk with
      | none => simp [stepOp, runOp, purchaseSave, hrow, appliedDelta]
      | some old =>
          have hi : old.itemId = i := hrows pk old hrow
          by_cases hd : qtyInt qty - qtyInt old.quantity = 0
          · simp [stepOp, runOp, purchaseSave, hrow, appliedDelta, hi, hd]
          · simp [stepOp, runOp, purchaseSave, hrow, appliedDelta, hi, hd,
              applyStockAdd_stock_self]
  | del pk =>
      cases hrow : db.rows pk with
      | none => simp [stepOp, runOp, purchaseDelete, hrow, appliedDelta]
      | some old =>
          have hi : old.itemId = i := hrows pk old hrow
          by_cases hneg : db.stock old.itemId - qtyInt old.quantity < 0
          · simp [stepOp, runOp, purchaseDelete, hrow, appliedDelta, hneg]
          · have hneg2 : ¬ db.stock i < qtyInt old.quantity := by
              rw [hi] at hneg; omega
            simp [stepOp, runOp, purchaseDelete, hrow, appliedDelta, hi, hneg2]
            omega

theorem stepOp_rows_itemId (i : ItemId) (db : DB) (op : POp)
    (hrows : ∀ pk r, db.rows pk = some r → r.itemId = i) :
    ∀ pk r, (stepOp i db op).rows pk = some r → r.itemId = i := by
  cases op with
  | create qty price =>
      intro pk r h
      simp only [stepOp, runOp, purchaseSave] at h
      rw [applyStockAdd_rows] at h
      by_cases hpk : pk = db.nextPk
      · simp only [hpk, if_pos rfl] at h
        cases h
        rfl
      · simp only [if_neg hpk] at h
        exact hrows pk r h
  | update pk0 qty price =>
      intro pk r h
      cases hrow : db.rows pk0 with
      | none => simp only [stepOp, runOp, purchaseSave, hrow] at h; exact hrows pk r h
      | some old =>
          have hi : old.itemId = i := hrows pk0 old hrow
          simp only [stepOp, runOp, purchaseSave, hrow, hi, ne_eq, not_true_eq_false,
            if_false, ite_false] at h
          rw [apply_ite DB.rows, applyStockAdd_rows, ite_self] at h
          simp only [] at h
          by_cases hpk : pk = pk0
          · simp only [hpk, if_pos rfl] at h; cases h; rfl
          · simp only [if_neg hpk] at h; exact hrows pk r h
  | del pk0 =>
      intro pk r h
      cases hrow : db.rows pk0 with
      | none => simp only [stepOp, runOp, purchaseDelete, hrow] at h; exact hrows pk r h
      | some old =>
          by_cases hneg : db.stock old.itemId - qtyInt old.quantity < 0
          · simp only [stepOp, runOp, purchaseDelete, hrow, hneg, ite_true, if_true] at h
            exact hrows pk r h
          · simp only [stepOp, runOp, purchaseDelete, hrow, hneg, ite_false, if_false,
              not_false_eq_true] at h
            by_cases hpk : pk = pk0
            · simp only [hpk, if_pos rfl] at h
              exact absurd h (by simp)
            · simp only [if_neg hpk] at h; exact hrows pk r h

/-- Concrete database with an empty purchase table, ten units of stock on
every item. -/
def dbA : DB :=
  { stock := fun _ => 10, writes := 0, rows := fun _ => none, nextPk := 1 }

/-- Concrete purchase row: three units of item 0 at unit price 2. -/
def rowB : PRow := { itemId := 0, quantity := some 3, price := some 2, totalValue := 6 }

/-- Concrete database holding `rowB` at primary key 1, five units of stock on
every item. -/
def dbB : DB :=
  { stock := fun _ => 5, writes := 0,
    rows := fun p => if p = 1 then some rowB else none, nextPk := 2 }

/-- Concrete database holding `rowB` at primary key 1 but only one unit of
stock, so deleting the three-unit purchase must be rejected. -/
def dbC : DB :=
  { stock := fun _ => 1, writes := 0,
    rows := fun p => if p = 1 then some rowB else none, nextPk := 2 }

/-- Concrete operation sequence against item 0: create five units, update the
purchase to eight units, delete it, then attempt a second delete (rejected:
the row no longer exists, so no delta is applied). -/
def opsA : List POp :=
  [.create (some 5) (some 2), .update 1 (some 8) (some 2), .del 1, .del 1]

/-- C1: for every sequence of Purchase create, update (same item), and delete
operations applied to a single Item, the final quantity equals the initial
quantity plus the sum of the applied deltas (+quantity for a create,
new minus old for an applied same-item update, -quantity for an applied
delete, 0 for a rejected operation). -/
theorem purchase_ops_stock_accounting (i : ItemId) (ops : List POp) (db : DB)
    (hrows : ∀ pk r, db.rows pk = some r → r.itemId = i) :
    (runOps i db ops).stock i = db.stock i + sumDeltas i db ops := by
  induction ops generalizing db with
  | nil => simp [runOps, sumDeltas]
  | cons op ops ih =>
      simp only [runOps, sumDeltas]
      rw [ih (stepOp i db op) (stepOp_rows_itemId i db op hrows),
        stepOp_stock i db op hrows]
      ring

theorem purchase_ops_stock_accounting_witness :
    (∀ pk r, dbA.rows pk = some r → r.itemId = 0) ∧
    (runOps 0 dbA opsA).stock 0 = dbA.stock 0 + sumDeltas 0 dbA opsA ∧
    (runOps 0 dbA opsA).stock 0 = 10 :=
  ⟨fun _ r h => by simp [dbA] at h,
   purchase_ops_stock_accounting 0 opsA dbA (fun _ r h => by simp [dbA] at h),
   by rfl⟩

/-- C2: deleting a Purchase whose quantity exceeds the current stock of its
item fails with a domain error and mutates nothing; when the check passes the
item is decremented by the purchase quantity (never below zero) and the row
is removed, all other items and rows untouched. -/
theorem purchase_delete_nonnegative_guard (db : DB) (pk : Nat) (row : PRow)
    (hrow : db.rows pk = some row) :
    (db.stock row.itemId - qtyInt row.quantity < 0 →
      ∃ msg, purchaseDelete db pk = .error msg) ∧
    (0 ≤ db.stock row.itemId - qtyInt row.quantity →
      ∃ db1, purchaseDelete db pk = .ok db1 ∧
        db1.stock row.itemId = db.stock row.itemId - qtyInt row.quantity ∧
        0 ≤ db1.stock row.itemId ∧
        db1.rows pk = none ∧
        (∀ j, j ≠ row.itemId → db1.stock j = db.stock j) ∧
        (∀ p, p ≠ pk → db1.rows p = db.rows p)) := by
  constructor
  · intro hneg
    have hneg2 : db.stock row.itemId < qtyInt row.quantity := by omega
    exact ⟨"Suppression impossible : la quantite deviendrait negative.",
      by simp [purchaseDelete, hrow, hneg, hneg2]⟩
  · intro hpos
    have hc : ¬ db.stock row.itemId < qtyInt row.quantity := by omega
    refine ⟨{ db with
        stock := fun j => if j = row.itemId then db.stock j - qtyInt row.quantity
          else db.stock j,
        writes := db.writes + 1,
        rows := fun p => if p = pk then none else db.rows p },
      ?_, ?_, ?_, ?_, ?_, ?_⟩
    · simp [purchaseDelete, hrow, hc]
    · simp
    · simp; omega
    · simp
    · intro j hj; simp [hj]
    · intro p hp; simp [hp]

theorem purchase_delete_nonnegative_guard_witness :
    dbB.rows 1 = some rowB ∧ dbC.rows 1 = some rowB ∧
    (0 ≤ dbB.stock rowB.itemId - qtyInt rowB.quantity →
      ∃ db1, purchaseDelete dbB 1 = .ok db1 ∧
        db1.stock rowB.itemId = dbB.stock rowB.itemId - qtyInt rowB.quantity ∧
        0 ≤ db1.stock rowB.itemId ∧
        db1.rows 1 = none ∧
        (∀ j, j ≠ rowB.itemId → db1.stock j = dbB.stock j) ∧
        (∀ p, p ≠ 1 → db1.rows p = dbB.rows p)) ∧
    (dbC.stock rowB.itemId - qtyInt rowB.quantity < 0 →
      ∃ msg, purchaseDelete dbC 1 = .error msg) :=
  ⟨by rfl, by rfl,
   (purchase_delete_nonnegative_guard dbB 1 rowB (by rfl)).2,
   (purchase_delete_nonnegative_guard dbC 1 rowB (by rfl)).1⟩

/-- C3: updating a Purchase so that it references a different Item decreases
the old item by the previous quantity, increases the new item by the new
quantity, and leaves every other item unchanged. -/
theorem purchase_update_item_change (db : DB) (pk : Nat) (old : PRow)
    (newItem : ItemId) (qty : Option Nat) (price : Option Int)
    (hrow : db.rows pk = some old) (hne : old.itemId ≠ newItem) :
    ∃ db1, purchaseSave db (some pk) newItem qty price = .ok db1 ∧
      db1.stock old.itemId = db.stock old.itemId - qtyInt old.quantity ∧
      db1.stock newItem = db.stock newItem + qtyInt qty ∧
      (∀ j, j ≠ old.itemId → j ≠ newItem → db1.stock j = db.stock j) := by
  simp only [purchaseSave, hrow, ne_eq, hne, not_false_eq_true, ite_true, if_true]
  refine ⟨_, rfl, ?_, ?_, ?_⟩
  · rw [applyStockAdd_stock_other _ _ _ _ hne]
    show (applyStockAdd db old.itemId (-(qtyInt old.quantity))).stock old.itemId = _
    rw [applyStockAdd_stock_self]
    ring
  · rw [applyStockAdd_stock_self]
    show (applyStockAdd db old.itemId (-(qtyInt old.quantity))).stock newItem + _ = _
    rw [applyStockAdd_stock_other _ _ _ _ (Ne.symm hne)]
  · intro j hj1 hj2
    rw [applyStockAdd_stock_other _ _ _ _ hj2]
    show (applyStockAdd db old.itemId (-(qtyInt old.quantity))).stock j = _
    rw [applyStockAdd_stock_other _ _ _ _ hj1]

theorem purchase_update_item_change_witness :
    dbB.rows 1 = some rowB ∧ rowB.itemId ≠ 2 ∧
    (∃ db1, purchaseSave dbB (some 1) 2 (some 4) (some 3) = .ok db1 ∧
      db1.stock rowB.itemId = dbB.stock rowB.itemId - qtyInt rowB.quantity ∧
      db1.stock 2 = dbB.stock 2 + qtyInt (some 4) ∧
      (∀ j, j ≠ rowB.itemId → j ≠ 2 → db1.stock j = dbB.stock j)) :=
  ⟨by rfl, by decide,
   purchase_update_item_change dbB 1 rowB 2 (some 4) (some 3) (by rfl) (by decide)⟩

/-- C4: immediately after any successful save, the stored Purchase row has
total_value = price * quantity, a null price or quantity counting as zero;
the computation is total (never raises). -/
theorem purchase_save_total_value (db : DB) (pk : Option Nat) (itemId : ItemId)
    (qty : Option Nat) (price : Option Int) (db1 : DB)
    (hok : purchaseSave db pk itemId qty price = .ok db1) :
    ∃ r, db1.rows (pk.getD db.nextPk) = some r ∧
      r.totalValue = price.getD 0 * qtyInt qty ∧
      r.itemId = itemId ∧ r.quantity = qty ∧ r.price = price := by
  cases pk with
  | none =>
      simp only [purchaseSave, Except.ok.injEq] at hok
      subst hok
      refine ⟨⟨itemId, qty, price, purchaseTotalValue price qty⟩, ?_, rfl, rfl, rfl, rfl⟩
      rw [applyStockAdd_rows]
      simp
  | some p =>
      cases hrow : db.rows p with
      | none => simp [purchaseSave, hrow] at hok
      | some old =>
          by_cases hne : old.itemId ≠ itemId
          · simp only [purchaseSave, hrow, ne_eq, hne, not_false_eq_true, ite_true,
              if_true, Except.ok.injEq] at hok
            subst hok
            refine ⟨⟨itemId, qty, price, purchaseTotalValue price qty⟩, ?_, rfl, rfl, rfl, rfl⟩
            rw [applyStockAdd_rows]
            simp
          · simp only [purchaseSave, hrow, ne_eq, hne, ite_false, if_false,
              Except.ok.injEq] at hok
            subst hok
            refine ⟨⟨itemId, qty, price, purchaseTotalValue price qty⟩, ?_, rfl, rfl, rfl, rfl⟩
            rw [apply_ite DB.rows, applyStockAdd_rows, ite_self]
            simp

/-- Result state of creating a five-unit purchase of item 0 against `dbA`. -/
def dbA1 : DB :=
  { stock := fun j => if j = 0 then 15 else 10, writes := 1,
    rows := fun q => if q = 1 then some ⟨0, some 5, some 2, 10⟩ else none,
    nextPk := 2 }

theorem purchase_save_total_value_witness :
    purchaseSave dbA none 0 (some 5) (some 2) = .ok dbA1 ∧
    (∃ r, dbA1.rows ((none : Option Nat).getD dbA.nextPk) = some r ∧
      r.totalValue = (some 2 : Option Int).getD 0 * qtyInt (some 5) ∧
      r.itemId = 0 ∧ r.quantity = some 5 ∧ r.price = some 2) :=
  ⟨by rfl, purchase_save_total_value dbA none 0 (some 5) (some 2) dbA1 (by rfl)⟩

/-- C10: saving an existing Purchase with unchanged item and quantity leaves
every stock level and the ledger write count unchanged, and the zero-delta
ledger helper performs no write at all. -/
theorem purchase_save_same_item_same_qty_noop (db : DB) (pk : Nat) (old : PRow)
    (qty : Option Nat) (price : Option Int)
    (hrow : db.rows pk = some old) (hq : qtyInt old.quantity = qtyInt qty) :
    (∃ db1, purchaseSave db (some pk) old.itemId qty price = .ok db1 ∧
        db1.stock = db.stock ∧ db1.writes = db.writes) ∧
    (∀ (d : DB) (j : ItemId), applyStockAdd d j 0 = d) := by
  constructor
  · have hd : qtyInt qty - qtyInt old.quantity = 0 := by omega
    simp [purchaseSave, hrow, hd]
  · intro d j
    simp [applyStockAdd]

theorem purchase_save_same_item_same_qty_noop_witness :
    dbB.rows 1 = some rowB ∧ qtyInt rowB.quantity = qtyInt (some 3) ∧
    ((∃ db1, purchaseSave dbB (some 1) rowB.itemId (some 3) (some 7) = .ok db1 ∧
        db1.stock = dbB.stock ∧ db1.writes = dbB.writes) ∧
     (∀ (d : DB) (j : ItemId), applyStockAdd d j 0 = d)) :=
  ⟨by rfl, by rfl,
   purchase_save_same_item_same_qty_noop dbB 1 rowB (some 3) (some 7) (by rfl) (by rfl)⟩

/-!
Financial aggregator (`src/store/views.py`).  The dashboard probes the Sale
schema at request time (`[f.name for f in Sale._meta.get_fields()]`) and
chooses its queries from the field names found, so the embedding takes the
list of schema field names as an input.  A `SaleRow` carries a value for
every field the code may probe; a field only influences the result when its
name is in the schema list, mirroring how Django filters are built by name.
-/

/-- Row of the `sales` table as seen by the dashboard heuristics.  Monetary
values are exact integers (fixed-point decimals). -/
structure SaleRow where
  id : Nat
  grandTotal : Int
  amountPaid : Int
  paidAmount : Int
  isPaid : Bool
  isFullyPaid : Bool
  paymentStatus : String
  balanceDue : Int
deriving Repr, DecidableEq

/-- Payment-field detection in `dashboard` (views.py lines 124 to 130):
probe for `amount_paid`, else `paid_amount`, else no payment field. -/
def detectPaymentField (names : List String) : Option String :=
  if "amount_paid" ∈ names then some "amount_paid"
  else if "paid_amount" ∈ names then some "paid_amount"
  else none

/-- Value of the detected payment column on a sale row. -/
def paymentVal (r : SaleRow) (f : String) : Int :=
  if f = "amount_paid" then r.amountPaid
  else if f = "paid_amount" then r.paidAmount
  else 0

/-- Construction of `paid_sales_qs` in `dashboard` (views.py lines 132 to
145): the first schema signal that exists wins.  The `payment_status` filter
is `payment_status__in=[..]` over the four exact strings written in the
source, and the `payment_field >= grand_total` filter is only built when the
schema also has `grand_total`. -/
def paidFilter (names : List String) (pf : Option String) (r : SaleRow) : Bool :=
  if "is_paid" ∈ names then r.isPaid
  else if "is_fully_paid" ∈ names then r.isFullyPaid
  else if "payment_status" ∈ names then
    decide (r.paymentStatus ∈ (["paid", "PAID", "completed", "COMPLETED"] : List String))
  else if pf.isSome ∧ "grand_total" ∈ names then
    -- this branch is only reachable when pf is some f; the getD default is inert
    decide (r.grandTotal ≤ paymentVal r (pf.getD ""))
  else if "balance_due" ∈ names then decide (r.balanceDue ≤ 0)
  else true

/-- Total revenue in `dashboard` (views.py lines 147 to 158): with a payment
field, sum it over all sales; otherwise sum `grand_total` over the
paid-classified sales (built with `payment_field = None`). -/
def totalRevenue (names : List String) (sales : List SaleRow) : Int :=
  match detectPaymentField names with
  | some f => (sales.map (fun r => paymentVal r f)).sum
  | none => ((sales.filter (paidFilter names none)).map (fun r => r.grandTotal)).sum

/-- C5: the payment field is `amount_paid` when present, else `paid_amount`;
when a payment field exists total revenue is the sum of that field over all
sales, otherwise it is the sum of `grand_total` over paid-classified sales. -/
theorem dashboard_revenue_detection (names : List String) (sales : List SaleRow) :
    ("amount_paid" ∈ names → detectPaymentField names = some "amount_paid") ∧
    ("amount_paid" ∉ names → "paid_amount" ∈ names →
      detectPaymentField names = some "paid_amount") ∧
    ("amount_paid" ∉ names → "paid_amount" ∉ names → detectPaymentField names = none) ∧
    (∀ f, detectPaymentField names = some f →
      totalRevenue names sales = (sales.map (fun r => paymentVal r f)).sum) ∧
    (detectPaymentField names = none →
      totalRevenue names sales =
        ((sales.filter (paidFilter names none)).map (fun r => r.grandTotal)).sum) := by
  refine ⟨?_, ?_, ?_, ?_, ?_⟩
  · intro h; simp [detectPaymentField, h]
  · intro h1 h2; simp [detectPaymentField, h1, h2]
  · intro h1 h2; simp [detectPaymentField, h1, h2]
  · intro f hf; simp [totalRevenue, hf]
  · intro hf; simp [totalRevenue, hf]

/-- Concrete sale rows used to evaluate the dashboard heuristics. -/
def saleR1 : SaleRow :=
  { id := 1, grandTotal := 20, amountPaid := 15, paidAmount := 0,
    isPaid := false, isFullyPaid := false, paymentStatus := "", balanceDue := 5 }

def saleR2 : SaleRow :=
  { id := 2, grandTotal := 30, amountPaid := 30, paidAmount := 0,
    isPaid := true, isFullyPaid := true, paymentStatus := "paid", balanceDue := 0 }

theorem dashboard_revenue_detection_witness :
    "amount_paid" ∈ ["amount_paid", "grand_total"] ∧
    detectPaymentField ["amount_paid", "grand_total"] = some "amount_paid" ∧
    totalRevenue ["amount_paid", "grand_total"] [saleR1, saleR2] =
      (([saleR1, saleR2]).map (fun r => paymentVal r "amount_paid")).sum ∧
    totalRevenue ["amount_paid", "grand_total"] [saleR1, saleR2] = 45 :=
  ⟨by decide,
   (dashboard_revenue_detection ["amount_paid", "grand_total"] [saleR1, saleR2]).1
     (by decide),
   (dashboard_revenue_detection ["amount_paid", "grand_total"] [saleR1, saleR2]).2.2.2.1
     "amount_paid"
     ((dashboard_revenue_detection ["amount_paid", "grand_total"] [saleR1, saleR2]).1
       (by decide)),
   by decide⟩

/-- Sale row with the mixed-case payment status `"Paid"`. -/
def saleMixedCase : SaleRow :=
  { id := 3, grandTotal := 10, amountPaid := 0, paidAmount := 0,
    isPaid := false, isFullyPaid := false, paymentStatus := "Paid", balanceDue := 10 }

/-- Sale row fully covered by its payment field but with a positive balance
recorded in `balance_due`. -/
def saleCovered : SaleRow :=
  { id := 4, grandTotal := 5, amountPaid := 7, paidAmount := 0,
    isPaid := false, isFullyPaid := false, paymentStatus := "", balanceDue := 3 }

/-- C6 counterexample: the claim as stated is false on the code in two ways.
A `payment_status` of `"Paid"` is equal, case-insensitively, to `"paid"`,
yet the code classifies the sale as unpaid (`payment_status__in` compares
exactly against `paid/PAID/completed/COMPLETED`).  And on a schema without
`grand_total` the claimed `payment_field >= grand_total` signal is skipped:
a sale with payment 7 against a total of 5 is classified by the later
`balance_due <= 0` signal instead, hence unpaid. -/
theorem dashboard_paid_classification_counterexample :
    (paidFilter ["payment_status"] none saleMixedCase = false ∧
      saleMixedCase.paymentStatus.data.map Char.toLower = "paid".data) ∧
    (paidFilter ["amount_paid", "balance_due"] (some "amount_paid") saleCovered = false ∧
      saleCovered.grandTotal ≤ paymentVal saleCovered "amount_paid" ∧
      ¬ saleCovered.balanceDue ≤ 0) := by
  constructor
  · exact ⟨by decide, by decide⟩
  · exact ⟨by decide, by decide, by decide⟩

/-- Paid-sale classification as the amended claim states it, written
independently of the code: first match wins among boolean `is_paid`,
boolean `is_fully_paid`, `payment_status` exactly one of the four literal
strings, `payment_field >= grand_total` when the schema has both, and
`balance_due <= 0`; with no signal every sale counts as paid. -/
def paidClassSpec (names : List String) (pf : Option String) (r : SaleRow) : Bool :=
  if "is_paid" ∈ names then r.isPaid
  else if "is_fully_paid" ∈ names then r.isFullyPaid
  else if "payment_status" ∈ names then
    decide (r.paymentStatus = "paid" ∨ r.paymentStatus = "PAID" ∨
      r.paymentStatus = "completed" ∨ r.paymentStatus = "COMPLETED")
  else if pf.isSome ∧ "grand_total" ∈ names then
    decide (paymentVal r (pf.getD "") ≥ r.grandTotal)
  else if "balance_due" ∈ names then decide (r.balanceDue ≤ 0)
  else true

/-- C6 amended: paid-sale classification tries, in priority order, boolean
`is_paid`; then `is_fully_paid`; then `payment_status` exactly equal to one
of the strings `paid`, `PAID`, `completed`, `COMPLETED` (other casings do
not match); then, when the schema also has `grand_total`,
`payment_field >= grand_total`; then `balance_due <= 0`; otherwise every
sale is classified as paid. -/
theorem dashboard_paid_classification_amended (names : List String)
    (pf : Option String) (r : SaleRow) :
    paidFilter names pf r = paidClassSpec names pf r := by
  unfold paidFilter paidClassSpec
  simp only [List.mem_cons, List.not_mem_nil, or_false, ge_iff_le]

/-- Row of the `Item` table as seen by the aggregator: the stock quantity
plus the value of each numeric field, addressed by field name (the code
builds `F('quantity') * F(chosen_field)` from a name it probed). -/
structure ItemRow where
  quantity : Int
  fields : String → Int

/-- Candidate cost field names probed by `compute_total_inventory_cost`
(views.py line 67), in order. -/
def costFieldCandidates : List String :=
  ["cost_price", "purchase_price", "cost", "unit_cost", "buy_price", "purchase_cost"]

/-- Cost-field resolution in `compute_total_inventory_cost` (views.py lines
67 to 83): first candidate present in the Item schema, falling back to
`price` when present, else nothing. -/
def chooseCostField (itemFieldNames : List String) : Option String :=
  match costFieldCandidates.find? (fun c => decide (c ∈ itemFieldNames)) with
  | some c => some c
  | none => if "price" ∈ itemFieldNames then some "price" else none

/-- Embedding of `compute_total_inventory_cost` (views.py lines 60 to 92):
`SUM(quantity * chosen_field)` over all items, `0` when no usable field
exists. -/
def computeTotalInventoryCost (itemFieldNames : List String)
    (items : List ItemRow) : Int :=
  match chooseCostField itemFieldNames with
  | none => 0
  | some f => (items.map (fun it => it.quantity * it.fields f)).sum

/-- Unit-cost field resolution as the specification words it: the first
existing field among the six dedicated cost names, then `price`, else
none. -/
def specUnitCostField (names : List String) : Option String :=
  if "cost_price" ∈ names then some "cost_price"
  else if "purchase_price" ∈ names then some "purchase_price"
  else if "cost" ∈ names then some "cost"
  else if "unit_cost" ∈ names then some "unit_cost"
  else if "buy_price" ∈ names then some "buy_price"
  else if "purchase_cost" ∈ names then some "purchase_cost"
  else if "price" ∈ names then some "price"
  else none

/-- Inventory valuation as the specification words it. -/
def specInventoryValuation (names : List String) (items : List ItemRow) : Int :=
  match specUnitCostField names with
  | none => 0
  | some f => (items.map (fun it => it.quantity * it.fields f)).sum

/-- C7: total inventory valuation is the sum over items of quantity times
unit cost, the unit-cost field being the first existing among cost_price,
purchase_price, cost, unit_cost, buy_price, purchase_cost, with fallback to
price, and zero when no plausible field exists. -/
theorem inventory_valuation_matches_spec (names : List String) (items : List ItemRow) :
    computeTotalInventoryCost names items = specInventoryValuation names items := by
  have hfield : chooseCostField names = specUnitCostField names := by
    unfold chooseCostField specUnitCostField costFieldCandidates
    by_cases h1 : "cost_price" ∈ names <;>
    by_cases h2 : "purchase_price" ∈ names <;>
    by_cases h3 : "cost" ∈ names <;>
    by_cases h4 : "unit_cost" ∈ names <;>
    by_cases h5 : "buy_price" ∈ names <;>
    by_cases h6 : "purchase_cost" ∈ names <;>
    simp [List.find?, h1, h2, h3, h4, h5, h6]
  unfold computeTotalInventoryCost specInventoryValuation
  rw [hfield]

/-!
Failure semantics of the dashboard.  Each underlying database query is a
fallible input (`Except Unit`, an error standing for a raised exception).
The embedding keeps the try/except placement of the source: the Sale and
Item schema probes (views.py lines 118 to 121 and 68 to 71), the SaleDetail
module import (lines 53 to 56), the top-items block (lines 262 to 279) and
`compute_total_purchase_cost` (lines 99 to 103) swallow faults and degrade;
every other query is unguarded, so its exception propagates out of the
view.  The presentation-only blocks (monthly label series, recent-sale and
recent-delivery serialization) are not modelled.
-/

/-- Row of the `Delivery` table as used by the dashboard aggregates. -/
structure DeliveryRow where
  id : Nat
  isDelivered : Bool
deriving Repr, DecidableEq

/-- Row of the `sale_details` table as used by the top-items aggregation. -/
structure SaleDetailRow where
  saleId : Nat
  itemId : Nat
  quantity : Int
deriving Repr, DecidableEq

/-- Insertion into a list sorted by descending second component. -/
def insertDesc (x : Nat × Int) : List (Nat × Int) → List (Nat × Int)
  | [] => [x]
  | y :: ys => if y.2 < x.2 then x :: y :: ys else y :: insertDesc x ys

/-- Sort by descending second component (the ORDER BY -total_qty step). -/
def sortDesc : List (Nat × Int) → List (Nat × Int)
  | [] => []
  | x :: xs => insertDesc x (sortDesc xs)

/-- Top-items aggregation (views.py lines 263 to 277): restrict SaleDetail
to rows of paid-classified sales, group by item, sum quantities, order by
descending total, keep ten. -/
def topItemsCalc (paidIds : List Nat) (details : List SaleDetailRow) :
    List (Nat × Int) :=
  let ds := details.filter (fun d => decide (d.saleId ∈ paidIds))
  let ids := (ds.map (fun d => d.itemId)).eraseDups
  let agg := ids.map (fun i =>
    (i, ((ds.filter (fun d => decide (d.itemId = i))).map (fun d => d.quantity)).sum))
  (sortDesc agg).take 10

/-- Fallible query results feeding one dashboard request.
`saleDetailModel = none` models a failed import of the optional SaleDetail
model (`SaleDetail = None`). -/
structure DashIn where
  saleFieldsQ : Except Unit (List String)
  salesQ : Except Unit (List SaleRow)
  productsCountQ : Except Unit Nat
  deliveriesQ : Except Unit (List DeliveryRow)
  saleDetailModel : Option (Except Unit (List SaleDetailRow))
  itemFieldsQ : Except Unit (List String)
  itemsQ : Except Unit (List ItemRow)
  purchaseTotalsQ : Except Unit (List Int)

/-- Aggregates assembled into the dashboard template context. -/
structure DashCtx where
  totalRevenue : Int
  totalSales : Nat
  paidSalesCount : Nat
  totalProducts : Nat
  deliveriesTotal : Nat
  deliveredCount : Nat
  pendingCount : Nat
  topItems : List (Nat × Int)
  totalInventoryCost : Int
  totalPurchaseCost : Int

/-- Run of `compute_total_inventory_cost` over fallible queries: only the
field-name probe is wrapped in try/except (degrading to an empty name
list); the aggregate query itself is unguarded and propagates a fault. -/
def computeTotalInventoryCostRun (itemFieldsQ : Except Unit (List String))
    (itemsQ : Except Unit (List ItemRow)) : Except Unit Int :=
  match chooseCostField (itemFieldsQ.toOption.getD []) with
  | none => .ok 0
  | some f =>
      match itemsQ with
      | .error e => .error e
      | .ok items => .ok ((items.map (fun it => it.quantity * it.fields f)).sum)

/-- Run of `compute_total_purchase_cost` (views.py lines 95 to 103): the
whole body is wrapped in try/except, a fault degrades to zero. -/
def computeTotalPurchaseCostRun (q : Except Unit (List Int)) : Int :=
  match q with
  | .ok totals => totals.sum
  | .error _ => 0

/-- Control flow of the `dashboard` view (views.py lines 109 to 321) over
fallible queries.  The Sale schema probe degrades to an empty field list;
the top-items block degrades to an empty list when the SaleDetail model is
missing or its aggregation faults; the purchase-cost total degrades to
zero; every other query propagates its fault, aborting the view. -/
def dashboardRun (din : DashIn) : Except Unit DashCtx :=
  let saleNames := din.saleFieldsQ.toOption.getD []
  let pf := detectPaymentField saleNames
  match din.salesQ with
  | .error e => .error e
  | .ok sales =>
    match din.productsCountQ with
    | .error e => .error e
    | .ok totalProducts =>
      match din.deliveriesQ with
      | .error e => .error e
      | .ok deliveries =>
        match computeTotalInventoryCostRun din.itemFieldsQ din.itemsQ with
        | .error e => .error e
        | .ok invCost =>
          let paidSales := sales.filter (paidFilter saleNames pf)
          let topItems :=
            match din.saleDetailModel with
            | none => []
            | some (.error _) => []
            | some (.ok details) =>
                topItemsCalc (paidSales.map (fun s => s.id)) details
          .ok { totalRevenue := totalRevenue saleNames sales,
                totalSales := sales.length,
                paidSalesCount := paidSales.length,
                totalProducts := totalProducts,
                deliveriesTotal := deliveries.length,
                deliveredCount := (deliveries.filter (fun d => d.isDelivered)).length,
                pendingCount := (deliveries.filter (fun d => !d.isDelivered)).length,
                topItems := topItems,
                totalInventoryCost := invCost,
                totalPurchaseCost := computeTotalPurchaseCostRun din.purchaseTotalsQ }

/-- Dashboard input where every query succeeds. -/
def dashOkIn : DashIn :=
  { saleFieldsQ := .ok ["amount_paid", "grand_total"],
    salesQ := .ok [saleR1, saleR2],
    productsCountQ := .ok 2,
    deliveriesQ := .ok [⟨1, true⟩, ⟨2, false⟩],
    saleDetailModel := some (.ok [⟨2, 5, 3⟩]),
    itemFieldsQ := .ok ["price"],
    itemsQ := .ok [],
    purchaseTotalsQ := .ok [10] }

/-- Dashboard input identical to `dashOkIn` except that the single
inventory-cost aggregate query faults. -/
def dashInvFaultIn : DashIn := { dashOkIn with itemsQ := .error () }

/-- C8 counterexample: the claim as stated is false on the code.  With every
query succeeding the dashboard computes; changing only the inventory-cost
aggregate to fault makes the whole dashboard computation fail instead of
degrading that aggregate to zero (the aggregate query inside
`compute_total_inventory_cost` is not inside any try/except). -/
theorem dashboard_fault_isolation_counterexample :
    (dashboardRun dashOkIn).isOk = true ∧
    dashboardRun dashInvFaultIn = .error () := by
  exact ⟨by rfl, by rfl⟩

/-- C8 amended: only the guarded computations degrade on failure - the
schema probes degrade to an empty field list, a missing SaleDetail model or
a faulting top-items aggregation degrades to an empty top-items list, and a
faulting purchase-cost query degrades to a zero total - and the dashboard
succeeds whenever the unguarded queries (sales, product count, deliveries,
inventory items) succeed; a fault in an unguarded aggregate aborts the
whole dashboard computation. -/
theorem dashboard_guarded_fault_isolation (din : DashIn)
    (s : List SaleRow) (n : Nat) (d : List DeliveryRow) (its : List ItemRow)
    (hs : din.salesQ = .ok s) (hn : din.productsCountQ = .ok n)
    (hd : din.deliveriesQ = .ok d) (hits : din.itemsQ = .ok its) :
    ∃ ctx, dashboardRun din = .ok ctx ∧
      (din.saleDetailModel = none → ctx.topItems = []) ∧
      (∀ e, din.saleDetailModel = some (.error e) → ctx.topItems = []) ∧
      (∀ e, din.purchaseTotalsQ = .error e → ctx.totalPurchaseCost = 0) := by
  have hinv : ∃ v, computeTotalInventoryCostRun din.itemFieldsQ din.itemsQ = .ok v := by
    unfold computeTotalInventoryCostRun
    cases hcf : chooseCostField (din.itemFieldsQ.toOption.getD []) with
    | none => exact ⟨0, rfl⟩
    | some f => rw [hits]; exact ⟨_, rfl⟩
  obtain ⟨v, hv⟩ := hinv
  unfold dashboardRun
  rw [hs, hn, hd, hv]
  refine ⟨_, rfl, ?_, ?_, ?_⟩
  · intro hsd; simp [hsd]
  · intro e hsd; simp [hsd]
  · intro e hp; simp [computeTotalPurchaseCostRun, hp]

/-- Dashboard input where every guarded signal faults (both schema probes,
the SaleDetail aggregation, the purchase-cost query) while the unguarded
queries succeed. -/
def dashGuardIn : DashIn :=
  { saleFieldsQ := .error (),
    salesQ := .ok [saleR1, saleR2],
    productsCountQ := .ok 2,
    deliveriesQ := .ok [],
    saleDetailModel := some (.error ()),
    itemFieldsQ := .error (),
    itemsQ := .ok [],
    purchaseTotalsQ := .error () }

theorem dashboard_guarded_fault_isolation_witness :
    dashGuardIn.salesQ = .ok [saleR1, saleR2] ∧
    dashGuardIn.productsCountQ = .ok 2 ∧
    dashGuardIn.deliveriesQ = .ok [] ∧
    dashGuardIn.itemsQ = .ok ([] : List ItemRow) ∧
    (∃ ctx, dashboardRun dashGuardIn = .ok ctx ∧
      (dashGuardIn.saleDetailModel = none → ctx.topItems = []) ∧
      (∀ e, dashGuardIn.saleDetailModel = some (.error e) → ctx.topItems = []) ∧
      (∀ e, dashGuardIn.purchaseTotalsQ = .error e → ctx.totalPurchaseCost = 0)) :=
  ⟨rfl, rfl, rfl, rfl,
   dashboard_guarded_fault_isolation dashGuardIn [saleR1, saleR2] 2 [] []
     rfl rfl rfl rfl⟩

/-!
Endpoint `delete_item_ajax` (views.py lines 366 to 390).  Exception classes
matter here: `get_object_or_404` raises `Http404` when no row matches, and
`Http404` derives directly from `Exception`, not from `Item.DoesNotExist`,
so the handler chain `except Item.DoesNotExist ... except Exception` routes
a missing item to the generic handler.
-/

/-- Python exception classes relevant to the deletion endpoint. -/
inductive PyExc where
  | http404
  | itemDoesNotExist
  | otherExc
deriving Repr, DecidableEq

/-- JSON response of the endpoint: the `success` flag and the HTTP status. -/
structure AjaxResponse where
  success : Bool
  status : Nat
deriving Repr, DecidableEq

/-- Model of `get_object_or_404(Item, pk=item_id)`: the matching item row,
or a raised `Http404` (the helper catches `Item.DoesNotExist` internally
and re-raises it as `Http404`). -/
def getObjectOr404 (items : List (Nat × Int)) (pk : Nat) :
    Except PyExc (Nat × Int) :=
  match items.find? (fun it => decide (it.1 = pk)) with
  | some it => .ok it
  | none => .error .http404

/-- Body of the `transaction.atomic()` block in `delete_item_ajax`: look the
item up, delete its row (the recomputed inventory total is not needed by
the claim). -/
def deleteItemTxn (items : List (Nat × Int)) (pk : Nat) :
    Except PyExc (List (Nat × Int)) :=
  match getObjectOr404 items pk with
  | .error e => .error e
  | .ok _ => .ok (items.filter (fun it => decide (it.1 ≠ pk)))

/-- Embedding of `delete_item_ajax` (views.py lines 366 to 390): permission
gate (403), missing id parameter (400), then the atomic block with the
source's handler chain - `except Item.DoesNotExist` answers 404,
`except Exception` answers 500; a raised exception rolls the transaction
back, so the item table is returned unchanged. -/
def deleteItemAjax (isAuthenticated isStaff : Bool) (idParam : Option Nat)
    (items : List (Nat × Int)) : AjaxResponse × List (Nat × Int) :=
  if !isAuthenticated || !isStaff then ({ success := false, status := 403 }, items)
  else
    match idParam with
    | none => ({ success := false, status := 400 }, items)
    | some pk =>
        match deleteItemTxn items pk with
        | .ok newItems => ({ success := true, status := 200 }, newItems)
        | .error PyExc.itemDoesNotExist => ({ success := false, status := 404 }, items)
        | .error _ => ({ success := false, status := 500 }, items)

/-- C9: calling the deletion endpoint as an authenticated staff user with an
id matching no Item mutates nothing, but the response is the generic 500
error, not the claimed 404 rejection: `get_object_or_404` raises `Http404`,
which the `except Item.DoesNotExist` clause never catches, so the 404
branch in the source is unreachable and `except Exception` answers 500. -/
theorem delete_item_ajax_missing_item_returns_500 :
    deleteItemAjax true true (some 7) [(1, 4)] =
      ({ success := false, status := 500 }, [(1, 4)]) ∧
    (deleteItemAjax true true (some 7) [(1, 4)]).1.status ≠ 404 ∧
    deleteItemAjax true true (some 1) [(1, 4)] =
      ({ success := true, status := 200 }, []) := by
  exact ⟨by decide, by decide, by decide⟩

end Egif
